import Mathlib

/-!
# Verification of the AgenticOS credential / ingestion engine

Shallow embedding of the core of the repository:

* `src/jobs/mentions.job.ts` — the poll/reply ingestion cycle
  (`runMentionsOnce`).  The repository contains two snapshots of this
  file; the first one (`...V1` below, `MAX_REPLIES_PER_CYCLE = 2`)
  advances the checkpoint eagerly, the second one (`...V2`,
  `MAX_REPLIES_PER_CYCLE = 1`) advances it only on success.  Both are
  embedded faithfully.
* `src/utils/encryption.ts` — the credential vault (`saveTokens`,
  `loadTokens`), parametric over an authenticated-encryption primitive.
* `src/services/auth.service.ts` — the signed OAuth state token
  (`parseSignedState`).
* `src/services/twitter.service.ts` (first snapshot) — the
  refresh-on-401 request wrapper (`authedRequest`).
* `src/routes/mention.route.ts` — the single-flight manual trigger.

Modelling conventions: JavaScript numbers that hold epoch milliseconds
are `Nat`; `Date.now()` is a single `now : Nat` parameter per cycle
(time does not advance inside a cycle); network effects become an
oracle (`World`) giving each call's outcome, and the list of calls
actually issued is returned as a trace; the persisted JSON state file
is threaded explicitly (`loadState` = the input value, each
`saveState` = an update of the threaded value).
-/

namespace AgenticOS

/-! ## Data model of the mentions job (`src/jobs/mentions.job.ts`) -/

/-- A fetched mention, as returned by `fetchMentions`. -/
structure Mention where
  id : String
  text : String
  author_id : String
deriving DecidableEq, Repr

/-- The persisted `State` of `mentions.job.ts` (`mentions-state.json`). -/
structure MState where
  sinceId : Option String
  nextAllowedAt : Option Nat
  me : Option String
  lastRunAt : Option Nat
deriving DecidableEq, Repr

/-- An axios-style HTTP error: optional status and the two rate-limit
response headers the code consults (`retry-after` seconds,
`x-rate-limit-reset` unix seconds). -/
structure HttpFailure where
  status : Option Nat
  retryAfter : Option Nat
  rateLimitReset : Option Nat
deriving DecidableEq, Repr

/-- The report object `runMentionsOnce` resolves with. -/
structure Report where
  handled : Nat
  lastId : Option String
  skipped : Option String
  nextAllowedAt : Option Nat
deriving DecidableEq, Repr

/-- One outbound network call made during a cycle (the trace element). -/
inductive NetCall where
  | getSelf : NetCall
  | fetch (me : String) (sinceId : Option String) : NetCall
  | reply (text : String) (toId : String) : NetCall
deriving DecidableEq, Repr

/-- Outcomes of the network calls a cycle may make (the oracle). -/
structure World where
  selfId : Except HttpFailure String
  mentionsResult : Except HttpFailure (List Mention)
  replyResult : String → Except HttpFailure Unit

/-- Result of one cycle: the report, the final content of the persisted
state file, and the trace of network calls in order. -/
abbrev CycleResult := Report × MState × List NetCall

def MAX_REPLIES_PER_CYCLE_V1 : Nat := 2
def MAX_REPLIES_PER_CYCLE_V2 : Nat := 1
def MANUAL_COOLDOWN_MS : Nat := 60000
def RATE_LIMIT_FALLBACK_MS : Nat := 120000

/-- `BigInt(s)` on a decimal id string (arbitrary precision, as `Nat`):
the value of the decimal digits.  (JS `BigInt` throws on non-digit
strings; all tweet ids are decimal digit strings.) -/
def idNum (s : String) : Nat :=
  s.data.foldl (fun n c => n * 10 + (c.toNat - 48)) 0

/-- The ascending-by-numeric-id comparator used by
`mentions.sort((a, b) => (BigInt(a.id) < BigInt(b.id) ? -1 : 1))`. -/
def mentionLE (a b : Mention) : Prop := idNum a.id ≤ idNum b.id

instance : DecidableRel mentionLE := fun _ _ => Nat.decLe _ _

instance : IsTotal Mention mentionLE := ⟨fun _ _ => Nat.le_total _ _⟩

instance : IsTrans Mention mentionLE := ⟨fun _ _ _ h h' => Nat.le_trans h h'⟩

/-- The in-place ascending sort of the fetched mentions.  (JS `sort`
with a consistent comparator; on distinct numeric ids the result is the
unique ascending order, embedded as insertion sort.) -/
def sortMentions (ms : List Mention) : List Mention :=
  List.insertionSort mentionLE ms

/-- `nextAllowedFromError` of the first snapshot: `retry-after` seconds
if present (even `"0"`, which is truthy in JS), else a fixed fallback. -/
def nextAllowedFromErrorV1 (now : Nat) (e : HttpFailure) : Nat :=
  match e.retryAfter with
  | some ra => now + ra * 1000
  | none => now + RATE_LIMIT_FALLBACK_MS

/-- `nextAllowedFromError` of the second snapshot: `retry-after` plus a
1500 ms cushion, else `x-rate-limit-reset` minus now plus the cushion
when that is positive, else the fallback. -/
def nextAllowedFromErrorV2 (now : Nat) (e : HttpFailure) : Nat :=
  match e.retryAfter with
  | some ra => now + ra * 1000 + 1500
  | none =>
    match e.rateLimitReset with
    | some reset =>
      let wait : Int := (reset : Int) * 1000 - (now : Int) + 1500
      if 0 < wait then now + wait.toNat else now + RATE_LIMIT_FALLBACK_MS
    | none => now + RATE_LIMIT_FALLBACK_MS

/-- The shared `catch` of `runMentionsOnce` (both snapshots): on a 429
re-load the state file, persist a backoff window and the run timestamp;
on any other error return `{ handled: 0 }` leaving the file untouched.
`nextFrom` is the snapshot's `nextAllowedFromError`. -/
def outerCatch (nextFrom : Nat → HttpFailure → Nat) (now : Nat)
    (e : HttpFailure) (file : MState) (calls : List NetCall) : CycleResult :=
  if e.status = some 429 then
    let next := nextFrom now e
    let s2 : MState := { file with nextAllowedAt := some next, lastRunAt := some now }
    ({ handled := 0, lastId := file.sinceId, skipped := some "rate_limited",
       nextAllowedAt := some next }, s2, calls)
  else
    ({ handled := 0, lastId := none, skipped := none, nextAllowedAt := none }, file, calls)

/-- The reply loop of the FIRST snapshot (lines 99–122 of the first
`mentions.job.ts`): `lastId` is set to the current item id *before* the
reply is attempted; a non-429 failure just continues; a 429 persists
`sinceId = lastId` (the failed item!) together with the backoff. -/
def loopV1 (craft : String → String) (w : World) (now : Nat) (me : String)
    (st : MState) :
    List Mention → Option String → Nat → List NetCall → CycleResult
  | [], lastId, handled, calls =>
    let st' : MState := { st with sinceId := lastId, lastRunAt := some now }
    ({ handled := handled, lastId := lastId, skipped := none,
       nextAllowedAt := none }, st', calls)
  | m :: rest, _, handled, calls =>
    let lastId := some m.id
    if m.author_id = me then
      loopV1 craft w now me st rest lastId handled calls
    else
      let calls := calls ++ [NetCall.reply (craft m.text) m.id]
      match w.replyResult m.id with
      | Except.ok _ => loopV1 craft w now me st rest lastId (handled + 1) calls
      | Except.error err =>
        if err.status = some 429 then
          let next := nextAllowedFromErrorV1 now err
          let st' : MState := { st with nextAllowedAt := some next,
                                        sinceId := lastId, lastRunAt := some now }
          ({ handled := handled, lastId := lastId, skipped := some "rate_limited",
             nextAllowedAt := some next }, st', calls)
        else
          loopV1 craft w now me st rest lastId handled calls

/-- The reply loop of the SECOND snapshot (lines 278–302 of the second
`mentions.job.ts`): `lastSuccessfulId` advances only past self-authored
items and successful replies; a 429 persists the backoff without
touching `sinceId`. -/
def loopV2 (craft : String → String) (w : World) (now : Nat) (me : String)
    (st : MState) :
    List Mention → Option String → Nat → List NetCall → CycleResult
  | [], lastSucc, handled, calls =>
    let st' : MState := { st with sinceId := lastSucc, lastRunAt := some now }
    ({ handled := handled, lastId := lastSucc, skipped := none,
       nextAllowedAt := none }, st', calls)
  | m :: rest, lastSucc, handled, calls =>
    if m.author_id = me then
      loopV2 craft w now me st rest (some m.id) handled calls
    else
      let calls := calls ++ [NetCall.reply (craft m.text) m.id]
      match w.replyResult m.id with
      | Except.ok _ => loopV2 craft w now me st rest (some m.id) (handled + 1) calls
      | Except.error err =>
        if err.status = some 429 then
          let next := nextAllowedFromErrorV2 now err
          let st' : MState := { st with nextAllowedAt := some next, lastRunAt := some now }
          ({ handled := handled, lastId := lastSucc, skipped := some "rate_limited",
             nextAllowedAt := some next }, st', calls)
        else
          loopV2 craft w now me st rest lastSucc handled calls

/-- Fetch phase of the first snapshot: fetch, empty short-circuit
(persisting only `lastRunAt`), else sort ascending, take the batch cap,
run the loop.  `st` is both the in-memory state and the current file
content (they coincide at this point). -/
def fetchPhaseV1 (craft : String → String) (w : World) (now : Nat) (me : String)
    (st : MState) (calls : List NetCall) : CycleResult :=
  let calls := calls ++ [NetCall.fetch me st.sinceId]
  match w.mentionsResult with
  | Except.error e => outerCatch nextAllowedFromErrorV1 now e st calls
  | Except.ok ms =>
    if ms.isEmpty then
      let st' : MState := { st with lastRunAt := some now }
      ({ handled := 0, lastId := st.sinceId, skipped := none,
         nextAllowedAt := none }, st', calls)
    else
      let batch := (sortMentions ms).take MAX_REPLIES_PER_CYCLE_V1
      loopV1 craft w now me st batch st.sinceId 0 calls

/-- Fetch phase of the second snapshot (identical shape, cap 1, its own
backoff computation). -/
def fetchPhaseV2 (craft : String → String) (w : World) (now : Nat) (me : String)
    (st : MState) (calls : List NetCall) : CycleResult :=
  let calls := calls ++ [NetCall.fetch me st.sinceId]
  match w.mentionsResult with
  | Except.error e => outerCatch nextAllowedFromErrorV2 now e st calls
  | Except.ok ms =>
    if ms.isEmpty then
      let st' : MState := { st with lastRunAt := some now }
      ({ handled := 0, lastId := st.sinceId, skipped := none,
         nextAllowedAt := none }, st', calls)
    else
      let batch := (sortMentions ms).take MAX_REPLIES_PER_CYCLE_V2
      loopV2 craft w now me st batch st.sinceId 0 calls

/-- Self-id resolution (both snapshots): use the state-cached id, else
call `getSelfUserId` and persist the cache before fetching. -/
def mePhase (fetchPhase : (String → String) → World → Nat → String → MState → List NetCall → CycleResult)
    (nextFrom : Nat → HttpFailure → Nat) (craft : String → String) (w : World)
    (now : Nat) (file0 : MState) : CycleResult :=
  match file0.me with
  | some me => fetchPhase craft w now me file0 []
  | none =>
    match w.selfId with
    | Except.error e => outerCatch nextFrom now e file0 [NetCall.getSelf]
    | Except.ok me =>
      let st : MState := { file0 with me := some me }
      fetchPhase craft w now me st [NetCall.getSelf]

/-- Manual-cooldown gate (both snapshots): `manual && state.lastRunAt &&
now - state.lastRunAt < MANUAL_COOLDOWN_MS` (a stored `0` is falsy). -/
def cooldownActive (manual : Bool) (now : Nat) (file0 : MState) : Bool :=
  manual && (match file0.lastRunAt with
    | some t => decide (t ≠ 0) && decide (now - t < MANUAL_COOLDOWN_MS)
    | none => false)

/-- `runMentionsOnce` of the FIRST snapshot of `src/jobs/mentions.job.ts`. -/
def runMentionsOnceV1 (craft : String → String) (w : World) (now : Nat)
    (manual : Bool) (file0 : MState) : CycleResult :=
  match file0.nextAllowedAt with
  | some d =>
    if now < d then
      ({ handled := 0, lastId := file0.sinceId,
         skipped := some ("backoff_active_" ++ toString (d - now) ++ "ms"),
         nextAllowedAt := some d }, file0, [])
    else if cooldownActive manual now file0 then
      ({ handled := 0, lastId := file0.sinceId,
         skipped := some ("manual_cooldown_"
           ++ toString (MANUAL_COOLDOWN_MS - (now - file0.lastRunAt.getD 0)) ++ "ms"),
         nextAllowedAt := none }, file0, [])
    else mePhase fetchPhaseV1 nextAllowedFromErrorV1 craft w now file0
  | none =>
    if cooldownActive manual now file0 then
      ({ handled := 0, lastId := file0.sinceId,
         skipped := some ("manual_cooldown_"
           ++ toString (MANUAL_COOLDOWN_MS - (now - file0.lastRunAt.getD 0)) ++ "ms"),
         nextAllowedAt := none }, file0, [])
    else mePhase fetchPhaseV1 nextAllowedFromErrorV1 craft w now file0

/-- `runMentionsOnce` of the SECOND snapshot of `src/jobs/mentions.job.ts`. -/
def runMentionsOnceV2 (craft : String → String) (w : World) (now : Nat)
    (manual : Bool) (file0 : MState) : CycleResult :=
  match file0.nextAllowedAt with
  | some d =>
    if now < d then
      ({ handled := 0, lastId := file0.sinceId,
         skipped := some ("backoff_active_" ++ toString (d - now) ++ "ms"),
         nextAllowedAt := some d }, file0, [])
    else if cooldownActive manual now file0 then
      ({ handled := 0, lastId := file0.sinceId,
         skipped := some ("manual_cooldown_"
           ++ toString (MANUAL_COOLDOWN_MS - (now - file0.lastRunAt.getD 0)) ++ "ms"),
         nextAllowedAt := none }, file0, [])
    else mePhase fetchPhaseV2 nextAllowedFromErrorV2 craft w now file0
  | none =>
    if cooldownActive manual now file0 then
      ({ handled := 0, lastId := file0.sinceId,
         skipped := some ("manual_cooldown_"
           ++ toString (MANUAL_COOLDOWN_MS - (now - file0.lastRunAt.getD 0)) ++ "ms"),
         nextAllowedAt := none }, file0, [])
    else mePhase fetchPhaseV2 nextAllowedFromErrorV2 craft w now file0

/-! ## Credential vault (`src/utils/encryption.ts`)

`saveTokens` / `loadTokens` are embedded parametrically over the
authenticated-encryption primitive (PBKDF2-SHA256 key derivation plus
AES-GCM): `AEAD.derive` stands for `deriveKey`, `AEAD.encrypt` /
`AEAD.decrypt` for `crypto.subtle.encrypt` / `decrypt` (decryption is
partial: AES-GCM rejects a wrong key or tampered ciphertext).  The
plaintext `JSON.stringify` / `JSON.parse` of the token pair is
modelled as the identity on the typed record. -/

/-- The decrypted credential bundle (`TwitterTokens`). -/
structure TwitterTokens where
  accessToken : String
  refreshToken : String
deriving DecidableEq, Repr

/-- The authenticated-encryption primitive the vault is built on. -/
structure AEAD (Key CT : Type) where
  derive : String → List Nat → Key
  encrypt : Key → List Nat → TwitterTokens → CT
  decrypt : Key → List Nat → CT → Option TwitterTokens

/-- The `EncryptedBlobV2` record written by `saveTokens`. -/
structure EncryptedBlobV2 (CT : Type) where
  version : Nat
  kdf : String
  rounds : Nat
  salt : List Nat
  iv : List Nat
  ciphertext : CT
  createdAt : Nat

/-- The parsed JSON shape of the tokens file as `loadTokens` probes it
(dynamic field accesses become optional fields; JS truthiness of the
string fields is an explicit non-emptiness check). -/
structure TokensJson (CT : Type) where
  version : Option Nat
  salt : Option (List Nat)
  iv : Option (List Nat)
  ciphertext : Option CT
  accessToken : Option String
  refreshToken : Option String

/-- The raw tokens file: JSON that parsed, or content `JSON.parse`
throws on. -/
inductive TokensFile (CT : Type) where
  | jsonFile (j : TokensJson CT) : TokensFile CT
  | invalidJson : TokensFile CT

/-- The three failure kinds `loadTokens` surfaces: the not-found error
(line 82), the decryption-failed error (line 106), and the
invalid/unrecognized-file error (lines 117 and 121; note the
`Unrecognized tokens file format` throw is re-wrapped by the outer
catch into the invalid-file error because its message does not contain
`Decryption failed`). -/
inductive LoadErr where
  | notFound : LoadErr
  | decryptionFailed : LoadErr
  | invalidFile : LoadErr
deriving DecidableEq, Repr

/-- `saveTokens(accessToken, refreshToken, passphrase)`: derive the key
from the passphrase and a fresh `salt`, AES-GCM-encrypt the serialized
pair under a fresh `iv`, and write the version-2 blob.  The random
`salt` / `iv` and `Date.now()` are parameters. -/
def saveTokens {Key CT : Type} (aead : AEAD Key CT)
    (accessToken refreshToken passphrase : String)
    (salt iv : List Nat) (now : Nat) : EncryptedBlobV2 CT :=
  let key := aead.derive passphrase salt
  let ciphertext := aead.encrypt key iv ⟨accessToken, refreshToken⟩
  { version := 2, kdf := "PBKDF2-SHA256", rounds := 100000, salt := salt,
    iv := iv, ciphertext := ciphertext, createdAt := now }

/-- The file content `saveTokens` leaves on disk, as `loadTokens` will
re-parse it. -/
def blobFile {Key CT : Type} (_aead : AEAD Key CT) (b : EncryptedBlobV2 CT) :
    TokensFile CT :=
  TokensFile.jsonFile
    { version := some b.version, salt := some b.salt, iv := some b.iv,
      ciphertext := some b.ciphertext, accessToken := none, refreshToken := none }

/-- `loadTokens(passphrase)`: not-found when no file exists; on a
version-2 envelope derive the key and decrypt (any failure inside —
decryption, parse of the plaintext, or missing token fields — becomes
the decryption-failed error); else the legacy plaintext fallback when
both token fields are truthy; else the invalid-file error. -/
def loadTokens {Key CT : Type} (aead : AEAD Key CT)
    (file : Option (TokensFile CT)) (passphrase : String) :
    Except LoadErr TwitterTokens :=
  match file with
  | none => Except.error LoadErr.notFound
  | some TokensFile.invalidJson => Except.error LoadErr.invalidFile
  | some (TokensFile.jsonFile j) =>
    match j.version, j.ciphertext, j.salt, j.iv with
    | some 2, some ct, some salt, some iv =>
      let key := aead.derive passphrase salt
      match aead.decrypt key iv ct with
      | some obj =>
        if obj.accessToken ≠ "" ∧ obj.refreshToken ≠ "" then Except.ok obj
        else Except.error LoadErr.decryptionFailed
      | none => Except.error LoadErr.decryptionFailed
    | _, _, _, _ =>
      if (j.accessToken.getD "") ≠ "" ∧ (j.refreshToken.getD "") ≠ "" then
        Except.ok ⟨j.accessToken.getD "", j.refreshToken.getD ""⟩
      else Except.error LoadErr.invalidFile

/-- A concrete instantiation of the primitive used to witness the
vault theorems: the "ciphertext" records the key and nonce it was
produced under and decryption succeeds exactly for that key and
nonce. -/
def toyAEAD : AEAD (String × List Nat) ((String × List Nat) × List Nat × TwitterTokens) :=
  { derive := fun p s => (p, s)
    encrypt := fun k iv pt => (k, iv, pt)
    decrypt := fun k iv c => if c.1 = k ∧ c.2.1 = iv then some c.2.2 else none }

/-! ## Signed OAuth state token (`src/services/auth.service.ts`)

`parseSignedState` is embedded over an abstract HMAC-SHA256
(`hmac : key → message → tag bytes`) and an abstract `JSON.parse` of
the payload string (`jsonParse`; a payload failing the `typeof cv`
check is a parse failure).  A state string either splits into its two
base64url parts (`wellFormed payloadStr sig`) or it does not
(`malformed`: a missing part, or a part that fails decoding). -/

/-- The `OAuthStatePayloadV1` record: version tag, PKCE code verifier,
issuance timestamp (epoch ms). -/
structure OAuthStatePayloadV1 where
  v : Nat
  cv : String
  t : Nat
deriving DecidableEq, Repr

/-- A received state string, after splitting on `"."` and base64url
decoding. -/
inductive StateToken where
  | wellFormed (payloadStr : String) (sig : List Nat) : StateToken
  | malformed : StateToken

/-- The distinct `InvalidStateError` messages `parseSignedState`
throws. -/
inductive StateErr where
  | invalidFormat : StateErr
  | invalidSignature : StateErr
  | invalidPayload : StateErr
  | expired : StateErr
deriving DecidableEq, Repr

/-- The state-token TTL: 10 minutes in milliseconds. -/
def STATE_TTL_MS : Nat := 10 * 60 * 1000

/-- The constant-time byte comparison loop of `parseSignedState`
(lines 65–68): OR together the XOR of each byte pair, accept only if
the result is 0. -/
def ctFold (expected got : List Nat) : Nat :=
  (expected.zip got).foldl (fun acc p => acc ||| (p.1 ^^^ p.2)) 0

/-- `parseSignedState(state)`: reject a malformed token; recompute the
HMAC over the payload string and compare in constant time; parse the
payload and check the version tag; reject if more than the TTL has
elapsed since issuance (`Date.now() - payload.t > 10 * 60 * 1000`);
otherwise return the payload. -/
def parseSignedState (hmac : String → String → List Nat)
    (jsonParse : String → Option OAuthStatePayloadV1)
    (key : String) (now : Nat) :
    StateToken → Except StateErr OAuthStatePayloadV1
  | StateToken.malformed => Except.error StateErr.invalidFormat
  | StateToken.wellFormed payloadStr sig =>
    let expected := hmac key payloadStr
    if expected.length ≠ sig.length then Except.error StateErr.invalidSignature
    else if ctFold expected sig ≠ 0 then Except.error StateErr.invalidSignature
    else
      match jsonParse payloadStr with
      | none => Except.error StateErr.invalidPayload
      | some payload =>
        if payload.v ≠ 1 then Except.error StateErr.invalidPayload
        else if now - payload.t > STATE_TTL_MS then Except.error StateErr.expired
        else Except.ok payload

/-! ## Refresh-on-401 request wrapper
(`src/services/twitter.service.ts`, first snapshot)

`getAccessToken` / `authedRequest` are embedded over an oracle
(`AuthWorld`): `loadResult` is the outcome of
`loadTokens(env.ENCRYPTION_KEY)`, `refreshResult` the outcome of the
token-endpoint refresh call, and `exec tok` the final outcome of
`requestWithRetry` for the request carrying bearer token `tok`
(`requestWithRetry`'s internal 429/sleep retries are below this
granularity; only its final result is observable here).  The trace
records refresh calls, `saveTokens` call-site payloads, and the bearer
token of each issued request. -/

/-- The dynamically-typed stored token record as `normalize` probes it
(both snake_case and camelCase fields). -/
structure StoredRaw where
  access_token : Option String
  accessToken : Option String
  refresh_token : Option String
  refreshToken : Option String
  expires_in : Option Nat
  expiresIn : Option Nat
  created_at : Option Nat
  createdAt : Option Nat
deriving DecidableEq, Repr

/-- `normalize`'s output shape. -/
structure StoredNorm where
  access_token : Option String
  refresh_token : Option String
  expires_in : Option Nat
  created_at : Option Nat
deriving DecidableEq, Repr

/-- `pick(a, b)`: `a !== undefined ? a : b`. -/
def pick {α : Type} (a b : Option α) : Option α :=
  match a with
  | some x => some x
  | none => b

/-- `normalize(tokens)`. -/
def normalize (t : StoredRaw) : StoredNorm :=
  { access_token := pick t.access_token t.accessToken,
    refresh_token := pick t.refresh_token t.refreshToken,
    expires_in := pick t.expires_in t.expiresIn,
    created_at := pick t.created_at t.createdAt }

/-- `isExpired(t, skewSeconds = 120)`: expiry computed from issue time
plus TTL minus the safety skew, in whole seconds.  (`Nat` truncation at
0 agrees with the JS comparison because `nowSec ≥ 0`.) -/
def isExpired (t : StoredNorm) (nowMs : Nat) : Bool :=
  let created := t.created_at.getD 0
  let ttl := t.expires_in.getD 7200
  let nowSec := nowMs / 1000
  decide (created / 1000 + ttl - 120 ≤ nowSec)

/-- The refreshed bundle returned by `refreshAccessToken`. -/
structure Refreshed where
  accessToken : String
  refreshToken : String
  expiresIn : Option Nat
deriving DecidableEq, Repr

/-- An error thrown inside the wrapper: an axios HTTP failure (the
only kind carrying `response.status`) or a plain `Error`. -/
inductive AuthErr where
  | http (e : HttpFailure) : AuthErr
  | misc (msg : String) : AuthErr
deriving DecidableEq, Repr

/-- `err?.response?.status` of a thrown value. -/
def errStatus : AuthErr → Option Nat
  | AuthErr.http e => e.status
  | AuthErr.misc _ => none

/-- The object literal passed to `saveTokens` at both refresh
call-sites of this snapshot. -/
structure SavedBundle where
  access_token : String
  refresh_token : String
  token_type : String
  expires_in : Nat
  created_at : Nat
deriving DecidableEq, Repr

/-- Build the saved object from a refresh result
(`expires_in: refreshed.expiresIn ?? 7200`, `created_at: Date.now()`). -/
def mkSaved (rf : Refreshed) (now : Nat) : SavedBundle :=
  { access_token := rf.accessToken, refresh_token := rf.refreshToken,
    token_type := "bearer", expires_in := rf.expiresIn.getD 7200,
    created_at := now }

/-- Network/vault oracle for the wrapper. -/
structure AuthWorld where
  loadResult : Except AuthErr StoredRaw
  refreshResult : Except AuthErr Refreshed
  exec : String → Except AuthErr String

/-- Side-effect trace of the wrapper: refresh-endpoint calls,
`saveTokens` call payloads, and the bearer token of each
`requestWithRetry` invocation, in order. -/
structure ATrace where
  refreshCalls : Nat
  saves : List SavedBundle
  attempts : List String
deriving DecidableEq, Repr

def ATrace.empty : ATrace := { refreshCalls := 0, saves := [], attempts := [] }

/-- `getAccessToken()`: load and normalize the vaulted record, require
both tokens truthy, return the access token if not expired, else
refresh proactively, persist, and return the new access token. -/
def getAccessToken (w : AuthWorld) (now : Nat) : Except AuthErr String × ATrace :=
  match w.loadResult with
  | Except.error e => (Except.error e, ATrace.empty)
  | Except.ok raw =>
    let t := normalize raw
    if (t.access_token.getD "") = "" ∨ (t.refresh_token.getD "") = "" then
      (Except.error (AuthErr.misc "Stored tokens are incomplete. Please re-authorize."),
       ATrace.empty)
    else if !(isExpired t now) then
      (Except.ok (t.access_token.getD ""), ATrace.empty)
    else
      match w.refreshResult with
      | Except.error e =>
        (Except.error e, { refreshCalls := 1, saves := [], attempts := [] })
      | Except.ok rf =>
        (Except.ok rf.accessToken,
         { refreshCalls := 1, saves := [mkSaved rf now], attempts := [] })

/-- `authedRequest(cfg, doRefreshOn401 = true)`: resolve a token and
issue the request; if anything in that try-block throws with
`response.status === 401` (and the flag is set), re-load the vaulted
record, refresh once, persist the new bundle, and re-issue the request
once with the new access token — whose outcome, 401 included, is
returned as-is (no second refresh).  A missing refresh token rethrows
the original error. -/
def authedRequest (w : AuthWorld) (now : Nat) (doRefreshOn401 : Bool) :
    Except AuthErr String × ATrace :=
  let firstTry : Except AuthErr String × ATrace :=
    match getAccessToken w now with
    | (Except.ok tok, tr) =>
      (w.exec tok, { tr with attempts := tr.attempts ++ [tok] })
    | (Except.error e, tr) => (Except.error e, tr)
  match firstTry with
  | (Except.ok r, tr) => (Except.ok r, tr)
  | (Except.error e, tr) =>
    if errStatus e = some 401 ∧ doRefreshOn401 then
      match w.loadResult with
      | Except.error e2 => (Except.error e2, tr)
      | Except.ok raw =>
        let t := normalize raw
        if (t.refresh_token.getD "") = "" then (Except.error e, tr)
        else
          match w.refreshResult with
          | Except.error e3 =>
            (Except.error e3, { tr with refreshCalls := tr.refreshCalls + 1 })
          | Except.ok rf =>
            let tr2 : ATrace :=
              { refreshCalls := tr.refreshCalls + 1,
                saves := tr.saves ++ [mkSaved rf now],
                attempts := tr.attempts ++ [rf.accessToken] }
            (w.exec rf.accessToken, tr2)
    else (Except.error e, tr)

/-! ## Single-flight manual trigger (`src/routes/mention.route.ts`)

The `POST /run` handler runs atomically up to its response (it contains
no `await` between reading and setting the module-level `isRunning`
guard, and the spawned async block is not awaited), so it is a pure
function of the guard: it returns the busy response or the accepted
response, the guard value after the handler returns, and whether a new
cycle was spawned. -/

/-- The JSON body and HTTP status the handler responds with. -/
structure RunResponse where
  ok : Bool
  started : Option Bool
  error : Option String
  status : Nat
deriving DecidableEq, Repr

/-- The `POST /run` handler over the `isRunning` guard. -/
def postRunHandler (isRunning : Bool) : RunResponse × Bool × Bool :=
  if isRunning then
    ({ ok := false, started := none, error := some "runner_busy", status := 429 },
     isRunning, false)
  else
    ({ ok := true, started := some true, error := none, status := 202 },
     true, true)

/-! ## Concrete inputs used by individual results -/

/-- C1 input: one mention from another user whose reply fails with a
non-429 remote error (HTTP 500). -/
def c1World : World :=
  { selfId := Except.ok "me",
    mentionsResult := Except.ok [⟨"101", "hello", "u9"⟩],
    replyResult := fun _ =>
      Except.error { status := some 500, retryAfter := none, rateLimitReset := none } }

def c1File : MState :=
  { sinceId := some "100", nextAllowedAt := none, me := some "me", lastRunAt := none }

/-- C2 input: two new mentions; the reply to the first fails with a 429
carrying `Retry-After: 30`. -/
def c2World : World :=
  { selfId := Except.ok "me",
    mentionsResult := Except.ok [⟨"101", "a", "u1"⟩, ⟨"102", "b", "u2"⟩],
    replyResult := fun _ =>
      Except.error { status := some 429, retryAfter := some 30, rateLimitReset := none } }

def c2File : MState :=
  { sinceId := some "100", nextAllowedAt := none, me := some "me", lastRunAt := none }

/-- C5 witness input: a backoff deadline in the future. -/
def c5World : World :=
  { selfId := Except.ok "me",
    mentionsResult := Except.ok [],
    replyResult := fun _ => Except.ok () }

def c5File : MState :=
  { sinceId := some "42", nextAllowedAt := some 9000, me := some "me", lastRunAt := none }

/-- C7 scenario: checkpoint `100`, fetch returns `[105, 103, 104]`, every
reply succeeds. -/
def c7World : World :=
  { selfId := Except.ok "me",
    mentionsResult := Except.ok [⟨"105", "t5", "u5"⟩, ⟨"103", "t3", "u3"⟩, ⟨"104", "t4", "u4"⟩],
    replyResult := fun _ => Except.ok () }

def c7File : MState :=
  { sinceId := some "100", nextAllowedAt := none, me := some "me", lastRunAt := none }

/-- C4 witness HMAC: a concrete keyed tag function. -/
def c4Hmac (k m : String) : List Nat := [k.length + m.length, 7]

/-- C4 witness payload parser: recognises the single payload string
`"p"`. -/
def c4Parse (s : String) : Option OAuthStatePayloadV1 :=
  if s = "p" then some { v := 1, cv := "verifier", t := 0 } else none

def c4Payload : OAuthStatePayloadV1 := { v := 1, cv := "verifier", t := 0 }

/-- C6 witness: a stored bundle that is complete and unexpired, a
refresh that succeeds, and a remote that answers 401 to every request
(so the retried request also fails with 401). -/
def c6Raw : StoredRaw :=
  { access_token := some "oldtok", accessToken := none,
    refresh_token := some "rtok", refreshToken := none,
    expires_in := some 7200, expiresIn := none,
    created_at := some 1000000000, createdAt := none }

def c6Refreshed : Refreshed :=
  { accessToken := "newtok", refreshToken := "rtok2", expiresIn := some 7200 }

def c6World : AuthWorld :=
  { loadResult := Except.ok c6Raw,
    refreshResult := Except.ok c6Refreshed,
    exec := fun _ =>
      Except.error (AuthErr.http { status := some 401, retryAfter := none, rateLimitReset := none }) }

/-! ## Helper lemmas -/

/-- Bitwise OR of naturals is zero iff both are. -/
theorem nat_or_eq_zero {x y : Nat} : x ||| y = 0 ↔ x = 0 ∧ y = 0 := by
  constructor
  · intro h
    constructor
    · by_contra hx
      obtain ⟨i, hi⟩ := Nat.exists_most_significant_bit hx
      have h2 := congrArg (fun n => Nat.testBit n i) h
      simp [Nat.testBit_or, hi.1] at h2
    · by_contra hy
      obtain ⟨i, hi⟩ := Nat.exists_most_significant_bit hy
      have h2 := congrArg (fun n => Nat.testBit n i) h
      simp [Nat.testBit_or, hi.1] at h2
  · rintro ⟨rfl, rfl⟩
    rfl

/-- A fold of bitwise ORs is zero iff the accumulator and every folded
value are zero. -/
theorem foldl_or_eq_zero {α : Type} (f : α → Nat) :
    ∀ (l : List α) (a : Nat),
      l.foldl (fun acc p => acc ||| f p) a = 0 ↔ a = 0 ∧ ∀ p ∈ l, f p = 0 := by
  intro l
  induction l with
  | nil => simp
  | cons x xs ih =>
    intro a
    simp only [List.foldl_cons, ih, nat_or_eq_zero, List.mem_cons]
    constructor
    · rintro ⟨⟨ha, hx⟩, hxs⟩
      exact ⟨ha, fun p hp => hp.elim (fun h => h ▸ hx) (hxs p)⟩
    · rintro ⟨ha, h⟩
      exact ⟨⟨ha, h x (Or.inl rfl)⟩, fun p hp => h p (Or.inr hp)⟩

/-- If two equal-length byte lists XOR pairwise to zero, they are
equal. -/
theorem eq_of_zip_xor_zero :
    ∀ (xs ys : List Nat), xs.length = ys.length →
      (∀ p ∈ xs.zip ys, p.1 ^^^ p.2 = 0) → xs = ys := by
  intro xs
  induction xs with
  | nil =>
    intro ys hl _
    cases ys with
    | nil => rfl
    | cons y ys => simp at hl
  | cons x xs ih =>
    intro ys hl h
    cases ys with
    | nil => simp at hl
    | cons y ys =>
      simp only [List.zip_cons_cons, List.mem_cons] at h
      have hxy : x ^^^ y = 0 := h (x, y) (Or.inl rfl)
      have hx : x = y := Nat.xor_eq_zero.mp hxy
      have hrest : xs = ys := by
        refine ih ys ?_ ?_
        · simpa using hl
        · exact fun p hp => h p (Or.inr hp)
      rw [hx, hrest]

/-- The constant-time comparison accepts only equal tags: equal
lengths plus a zero OR-of-XORs forces equality. -/
theorem ctFold_eq_zero_imp {expected got : List Nat}
    (hl : expected.length = got.length) (h : ctFold expected got = 0) :
    expected = got := by
  have := (foldl_or_eq_zero (fun p : Nat × Nat => p.1 ^^^ p.2)
    (expected.zip got) 0).mp h
  exact eq_of_zip_xor_zero expected got hl this.2

/-- Every pair drawn from a list zipped with itself is reflexive. -/
theorem mem_zip_same {α : Type} :
    ∀ (xs : List α) (p : α × α), p ∈ xs.zip xs → p.1 = p.2 := by
  intro xs
  induction xs with
  | nil => intro p hp; simp at hp
  | cons x rest ih =>
    intro p hp
    simp only [List.zip_cons_cons, List.mem_cons] at hp
    cases hp with
    | inl h => rw [h]
    | inr h => exact ih p h

/-- The constant-time comparison accepts a tag compared with itself. -/
theorem ctFold_self (xs : List Nat) : ctFold xs xs = 0 := by
  refine (foldl_or_eq_zero (fun p : Nat × Nat => p.1 ^^^ p.2) (xs.zip xs) 0).mpr ?_
  refine ⟨rfl, fun p hp => ?_⟩
  rw [mem_zip_same xs p hp]
  exact Nat.xor_self p.2

/-- `toyAEAD` decrypts its own ciphertexts. -/
theorem toyAEAD_roundtrip (p : String) (s iv : List Nat) (pt : TwitterTokens) :
    toyAEAD.decrypt (toyAEAD.derive p s) iv (toyAEAD.encrypt (toyAEAD.derive p s) iv pt)
      = some pt := by
  simp [toyAEAD]

/-- `toyAEAD` rejects a ciphertext under a key derived from any other
passphrase. -/
theorem toyAEAD_wrongKey (p q : String) (s iv : List Nat) (pt : TwitterTokens)
    (h : p ≠ q) :
    toyAEAD.decrypt (toyAEAD.derive q s) iv (toyAEAD.encrypt (toyAEAD.derive p s) iv pt)
      = none := by
  simp [toyAEAD]
  intro hp
  exact h hp

/-! ## Results -/

/-- C1.  The checkpoint invariant — `sinceId` is only ever advanced
past items that were successfully replied to or skipped as
self-authored — is violated by the first snapshot of `runMentionsOnce`:
from checkpoint `100`, with one mention `101` whose reply fails with a
non-429 error (HTTP 500), it still persists `sinceId = "101"`.  The
second snapshot keeps the checkpoint at `"100"` on the same input. -/
theorem v1_checkpoint_advances_past_failed_reply :
    c1World.replyResult "101"
      = Except.error { status := some 500, retryAfter := none, rateLimitReset := none }
    ∧ (runMentionsOnceV1 (fun t => t) c1World 1000 false c1File).2.1.sinceId = some "101"
    ∧ (runMentionsOnceV1 (fun t => t) c1World 1000 false c1File).1.handled = 0
    ∧ (runMentionsOnceV2 (fun t => t) c1World 1000 false c1File).2.1.sinceId = some "100" := by
  refine ⟨rfl, by decide, by decide, by decide⟩

/-- C2.  On a rate-limited reply the first snapshot advances the
persisted checkpoint past the failed item: from checkpoint `100`, with
mentions `101` and `102` and a 429 (`Retry-After: 30`) on the reply to
`101`, it persists `sinceId = "101"` and a backoff of `now + 30000`,
stopping before `102`.  The second snapshot keeps `sinceId = "100"`
(its pre-attempt value) and persists `now + 30000 + 1500`. -/
theorem v1_checkpoint_advances_on_rate_limit :
    c2World.replyResult "101"
      = Except.error { status := some 429, retryAfter := some 30, rateLimitReset := none }
    ∧ runMentionsOnceV1 (fun t => t) c2World 1000 false c2File =
        ({ handled := 0, lastId := some "101", skipped := some "rate_limited",
           nextAllowedAt := some 31000 },
         { sinceId := some "101", nextAllowedAt := some 31000, me := some "me",
           lastRunAt := some 1000 },
         [NetCall.fetch "me" (some "100"), NetCall.reply "a" "101"])
    ∧ (runMentionsOnceV2 (fun t => t) c2World 1000 false c2File).2.1.sinceId = some "100"
    ∧ (runMentionsOnceV2 (fun t => t) c2World 1000 false c2File).2.1.nextAllowedAt
        = some 32500 := by
  refine ⟨rfl, by decide, by decide, by decide⟩

/-- C5.  With a persisted backoff deadline strictly in the future, one
cycle of either snapshot performs zero network calls, leaves the state
file untouched, and reports zero handled together with the remaining
wait and the deadline. -/
theorem backoff_short_circuits_cycle
    (craft : String → String) (w : World) (now : Nat) (manual : Bool)
    (file0 : MState) (d : Nat)
    (hd : file0.nextAllowedAt = some d) (hnow : now < d) :
    runMentionsOnceV1 craft w now manual file0 =
      ({ handled := 0, lastId := file0.sinceId,
         skipped := some ("backoff_active_" ++ toString (d - now) ++ "ms"),
         nextAllowedAt := some d }, file0, [])
    ∧ runMentionsOnceV2 craft w now manual file0 =
      ({ handled := 0, lastId := file0.sinceId,
         skipped := some ("backoff_active_" ++ toString (d - now) ++ "ms"),
         nextAllowedAt := some d }, file0, []) := by
  constructor
  · simp [runMentionsOnceV1, hd, hnow]
  · simp [runMentionsOnceV2, hd, hnow]

/-- C5 witness: the theorem applied at a concrete state with deadline
9000 and `now = 777`. -/
theorem backoff_short_circuits_cycle_witness :
    runMentionsOnceV1 (fun t => t) c5World 777 true c5File =
      ({ handled := 0, lastId := some "42",
         skipped := some ("backoff_active_" ++ toString (9000 - 777) ++ "ms"),
         nextAllowedAt := some 9000 }, c5File, [])
    ∧ runMentionsOnceV2 (fun t => t) c5World 777 true c5File =
      ({ handled := 0, lastId := some "42",
         skipped := some ("backoff_active_" ++ toString (9000 - 777) ++ "ms"),
         nextAllowedAt := some 9000 }, c5File, []) :=
  backoff_short_circuits_cycle (fun t => t) c5World 777 true c5File 9000 rfl (by decide)

/-- C7.  Fetched mentions are sorted ascending by arbitrary-precision
numeric id and a bounded prefix is processed in order: in the concrete
scenario (checkpoint `100`, fetch `[105, 103, 104]`, batch cap 2, all
replies succeeding) the first snapshot replies to `103` then `104` in
that order, persists checkpoint `"104"`, and `105` stays numerically
above the new checkpoint for the next cycle. -/
theorem mentions_sorted_and_batch_scenario :
    (∀ ms : List Mention, List.Sorted mentionLE (sortMentions ms))
    ∧ runMentionsOnceV1 (fun t => t) c7World 5000 false c7File =
        ({ handled := 2, lastId := some "104", skipped := none, nextAllowedAt := none },
         { sinceId := some "104", nextAllowedAt := none, me := some "me",
           lastRunAt := some 5000 },
         [NetCall.fetch "me" (some "100"), NetCall.reply "t3" "103",
          NetCall.reply "t4" "104"])
    ∧ idNum ((runMentionsOnceV1 (fun t => t) c7World 5000 false c7File).2.1.sinceId.getD "")
        < idNum "105" := by
  refine ⟨fun ms => List.sorted_insertionSort mentionLE ms, by decide, by decide⟩

/-- C9.  The single-flight guard of the manual trigger: with a cycle in
flight (`isRunning = true`) the handler answers `runner_busy` with
HTTP 429 at once and spawns no new cycle; with no cycle in flight it
answers 202/started, sets the guard, and spawns exactly one cycle
without waiting for its result. -/
theorem manual_trigger_single_flight :
    postRunHandler true =
      ({ ok := false, started := none, error := some "runner_busy", status := 429 },
       true, false)
    ∧ postRunHandler false =
      ({ ok := true, started := some true, error := none, status := 202 },
       true, true) := by
  decide

/-- C3.  Vault round-trip: for any authenticated-encryption primitive
with the AES-GCM contract (own-key decryption succeeds, wrong-key
decryption fails), loading the record written by `saveTokens` with the
same passphrase returns exactly the saved bundle, and loading it with
any other passphrase fails with the decryption error — never a
parseable-but-wrong bundle. -/
theorem vault_roundtrip_and_wrong_passphrase
    {Key CT : Type} (aead : AEAD Key CT)
    (hround : ∀ p s iv pt,
      aead.decrypt (aead.derive p s) iv (aead.encrypt (aead.derive p s) iv pt) = some pt)
    (hauth : ∀ p q s iv pt, p ≠ q →
      aead.decrypt (aead.derive q s) iv (aead.encrypt (aead.derive p s) iv pt) = none)
    (a r p q : String) (salt iv : List Nat) (now : Nat)
    (ha : a ≠ "") (hr : r ≠ "") :
    loadTokens aead (some (blobFile aead (saveTokens aead a r p salt iv now))) p
      = Except.ok ⟨a, r⟩
    ∧ (q ≠ p →
       loadTokens aead (some (blobFile aead (saveTokens aead a r p salt iv now))) q
         = Except.error LoadErr.decryptionFailed) := by
  constructor
  · simp [loadTokens, blobFile, saveTokens, hround p salt iv ⟨a, r⟩, ha, hr]
  · intro hq
    simp [loadTokens, blobFile, saveTokens, hauth p q salt iv ⟨a, r⟩ (Ne.symm hq)]

/-- C3 witness: the round trip at a concrete bundle and passphrases,
under the concrete `toyAEAD` primitive. -/
theorem vault_roundtrip_and_wrong_passphrase_witness :
    loadTokens toyAEAD (some (blobFile toyAEAD (saveTokens toyAEAD "A" "R" "pw" [1] [2] 0))) "pw"
      = Except.ok ⟨"A", "R"⟩
    ∧ loadTokens toyAEAD (some (blobFile toyAEAD (saveTokens toyAEAD "A" "R" "pw" [1] [2] 0))) "other"
      = Except.error LoadErr.decryptionFailed := by
  have h := vault_roundtrip_and_wrong_passphrase toyAEAD
    (fun p s iv pt => toyAEAD_roundtrip p s iv pt)
    (fun p q s iv pt hpq => toyAEAD_wrongKey p q s iv pt hpq)
    "A" "R" "pw" "other" [1] [2] 0 (by decide) (by decide)
  exact ⟨h.1, h.2 (by decide)⟩

/-- C8.  `loadTokens` failure taxonomy: the not-found error occurs
exactly when no record file exists; a wrong passphrase on a saved
version-2 record and a version-2 record whose ciphertext no longer
decrypts (corruption) both yield the decryption error; and the two
failure kinds are distinct, so callers can tell "never authorized"
from "wrong key". -/
theorem vault_failure_taxonomy
    {Key CT : Type} (aead : AEAD Key CT)
    (hauth : ∀ p q s iv pt, p ≠ q →
      aead.decrypt (aead.derive q s) iv (aead.encrypt (aead.derive p s) iv pt) = none)
    (a r p q : String) (salt iv : List Nat) (now : Nat)
    (hq : q ≠ p) :
    (∀ pass, loadTokens aead none pass = Except.error LoadErr.notFound)
    ∧ (∀ (f : TokensFile CT) pass,
        loadTokens aead (some f) pass ≠ Except.error LoadErr.notFound)
    ∧ loadTokens aead (some (blobFile aead (saveTokens aead a r p salt iv now))) q
        = Except.error LoadErr.decryptionFailed
    ∧ (∀ (j : TokensJson CT) (ct : CT) (s i : List Nat) pass,
        j.version = some 2 → j.ciphertext = some ct → j.salt = some s → j.iv = some i →
        aead.decrypt (aead.derive pass s) i ct = none →
        loadTokens aead (some (TokensFile.jsonFile j)) pass
          = Except.error LoadErr.decryptionFailed)
    ∧ LoadErr.notFound ≠ LoadErr.decryptionFailed := by
  refine ⟨fun pass => rfl, ?_, ?_, ?_, by decide⟩
  · intro f pass
    cases f with
    | invalidJson => simp [loadTokens]
    | jsonFile j =>
      simp only [loadTokens]
      split
      · split
        · split
          · simp
          · simp
        · simp
      · split
        · simp
        · simp
  · simp [loadTokens, blobFile, saveTokens, hauth p q salt iv ⟨a, r⟩ (Ne.symm hq)]
  · intro j ct s i pass hv hc hs hi hdec
    simp [loadTokens, hv, hc, hs, hi, hdec]

/-- C8 witness: the taxonomy at concrete inputs under `toyAEAD` — no
file gives not-found, a wrong passphrase on a saved record gives the
decryption error, and the two kinds differ. -/
theorem vault_failure_taxonomy_witness :
    loadTokens toyAEAD none "pw" = Except.error LoadErr.notFound
    ∧ loadTokens toyAEAD (some (blobFile toyAEAD (saveTokens toyAEAD "A" "R" "pw" [1] [2] 0))) "bad"
        = Except.error LoadErr.decryptionFailed
    ∧ LoadErr.notFound ≠ LoadErr.decryptionFailed := by
  have h := vault_failure_taxonomy toyAEAD
    (fun p q s iv pt hpq => toyAEAD_wrongKey p q s iv pt hpq)
    "A" "R" "pw" "bad" [1] [2] 0 (by decide)
  exact ⟨h.1 "pw", h.2.2.1, h.2.2.2.2⟩

/-- C10.  The legacy plaintext fallback: a tokens file holding
unencrypted JSON with truthy `accessToken` and `refreshToken` fields
(no version-2 envelope) is returned as-is by `loadTokens` under every
passphrase — a wrong passphrase does not fail, and the vault accepts a
plaintext-at-rest credential file. -/
theorem legacy_plaintext_bypasses_passphrase
    {Key CT : Type} (aead : AEAD Key CT) (p a r : String)
    (ha : a ≠ "") (hr : r ≠ "") :
    loadTokens aead (some (TokensFile.jsonFile
      { version := none, salt := none, iv := none, ciphertext := none,
        accessToken := some a, refreshToken := some r })) p
      = Except.ok ⟨a, r⟩ := by
  simp [loadTokens, ha, hr]

/-- C10 witness: the legacy record at a concrete bundle, loaded with a
passphrase that is certainly not the one any encryption used. -/
theorem legacy_plaintext_bypasses_passphrase_witness :
    loadTokens toyAEAD (some (TokensFile.jsonFile
      { version := none, salt := none, iv := none, ciphertext := none,
        accessToken := some "AT", refreshToken := some "RT" })) "totally-wrong-pass"
      = Except.ok ⟨"AT", "RT"⟩ :=
  legacy_plaintext_bypasses_passphrase toyAEAD "totally-wrong-pass" "AT" "RT"
    (by decide) (by decide)

/-- C4.  `parseSignedState` rejects a malformed token, rejects any
signature that differs from the HMAC over the payload (the
constant-time loop accepts only the exact tag), and rejects a token
whose issuance timestamp lies more than the 10-minute TTL in the past
even when the signature is correct and the payload well-formed. -/
theorem state_token_expiry_and_signature
    (hmac : String → String → List Nat)
    (jsonParse : String → Option OAuthStatePayloadV1)
    (key : String) (now : Nat) (payloadStr : String) (sig : List Nat)
    (payload : OAuthStatePayloadV1) :
    parseSignedState hmac jsonParse key now StateToken.malformed
        = Except.error StateErr.invalidFormat
    ∧ (sig ≠ hmac key payloadStr →
       parseSignedState hmac jsonParse key now (StateToken.wellFormed payloadStr sig)
         = Except.error StateErr.invalidSignature)
    ∧ (sig = hmac key payloadStr →
       jsonParse payloadStr = some payload →
       payload.v = 1 →
       now - payload.t > STATE_TTL_MS →
       parseSignedState hmac jsonParse key now (StateToken.wellFormed payloadStr sig)
         = Except.error StateErr.expired) := by
  refine ⟨rfl, ?_, ?_⟩
  · intro hne
    by_cases hl : (hmac key payloadStr).length = sig.length
    · by_cases hf : ctFold (hmac key payloadStr) sig = 0
      · exact absurd (ctFold_eq_zero_imp hl hf) (fun h => hne h.symm)
      · simp [parseSignedState, hl, hf]
    · simp [parseSignedState, hl]
  · rintro rfl hparse hv hexp
    simp [parseSignedState, ctFold_self, hparse, hv, hexp]

/-- C4 witness: under a concrete HMAC and payload parser, the three
rejections at concrete inputs — a malformed token, a wrong signature,
and a correctly-signed token issued at `t = 0` checked at
`now = 600001` (one millisecond past the TTL). -/
theorem state_token_expiry_and_signature_witness :
    parseSignedState c4Hmac c4Parse "k" 600001 StateToken.malformed
        = Except.error StateErr.invalidFormat
    ∧ parseSignedState c4Hmac c4Parse "k" 600001 (StateToken.wellFormed "p" [9, 9, 9])
        = Except.error StateErr.invalidSignature
    ∧ parseSignedState c4Hmac c4Parse "k" 600001 (StateToken.wellFormed "p" (c4Hmac "k" "p"))
        = Except.error StateErr.expired := by
  refine ⟨(state_token_expiry_and_signature c4Hmac c4Parse "k" 600001 "p" [9, 9, 9] c4Payload).1,
    (state_token_expiry_and_signature c4Hmac c4Parse "k" 600001 "p" [9, 9, 9] c4Payload).2.1
      (by decide),
    (state_token_expiry_and_signature c4Hmac c4Parse "k" 600001 "p" (c4Hmac "k" "p") c4Payload).2.2
      rfl (by decide) rfl (by decide)⟩

/-- C6.  `authedRequest` on a 401: with a complete, unexpired stored
bundle whose first request fails with status 401 and whose refresh
succeeds, the wrapper performs exactly one refresh, persists exactly
the refreshed bundle, issues exactly two requests (the original token
then the new access token), and returns the retried request's outcome
unchanged — so a second 401 surfaces to the caller without another
refresh. -/
theorem authedRequest_refreshes_once_on_401
    (w : AuthWorld) (now : Nat) (raw : StoredRaw) (rf : Refreshed) (e : AuthErr)
    (hload : w.loadResult = Except.ok raw)
    (hat : (normalize raw).access_token.getD "" ≠ "")
    (hrt : (normalize raw).refresh_token.getD "" ≠ "")
    (hfresh : isExpired (normalize raw) now = false)
    (h401 : w.exec ((normalize raw).access_token.getD "") = Except.error e)
    (hst : errStatus e = some 401)
    (hrf : w.refreshResult = Except.ok rf) :
    authedRequest w now true =
      (w.exec rf.accessToken,
       { refreshCalls := 1, saves := [mkSaved rf now],
         attempts := [(normalize raw).access_token.getD "", rf.accessToken] }) := by
  simp [authedRequest, getAccessToken, hload, hat, hrt, hfresh, h401, hst, hrf,
    ATrace.empty]

/-- C6 witness: a concrete world whose remote answers 401 to every
request — the wrapper refreshes once, saves the refreshed bundle,
retries once with the new token, and surfaces the second 401. -/
theorem authedRequest_refreshes_once_on_401_witness :
    authedRequest c6World 1000000000 true =
      (Except.error (AuthErr.http { status := some 401, retryAfter := none, rateLimitReset := none }),
       { refreshCalls := 1, saves := [mkSaved c6Refreshed 1000000000],
         attempts := ["oldtok", "newtok"] }) :=
  authedRequest_refreshes_once_on_401 c6World 1000000000 c6Raw c6Refreshed
    (AuthErr.http { status := some 401, retryAfter := none, rateLimitReset := none })
    rfl (by decide) (by decide) (by decide) rfl rfl rfl

end AgenticOS
